import Mathlib

/-!
# Verification of the translation-bot dispatch pipeline

A shallow embedding of `bot_enterprise.py`: the supported-language table,
the rate limiter (`is_rate_limited`), the LRU translation cache
(`cached_translate` under `functools.lru_cache`), the SQLite-backed policy
store (`chat_settings` / `user_settings` rows written with `REPLACE INTO`),
the command handlers (`translate_on`, `translate_off`, `setlang`), and the
message handler (`handle_message`).

Modelling conventions:
- SQLite tables become association lists keyed by the integer primary key.
  `REPLACE INTO t(pk, col) VALUES (...)` deletes any existing row and
  inserts a fresh one, so every column not in the column list takes its
  schema default (`enabled INTEGER DEFAULT 1`, `target_lang TEXT DEFAULT
  'en'`).
- `time.time()` becomes an explicit rational-number argument `now`.
- The Google-translate provider is a parameter: detection is
  `String → Except String String` (wrapped by `detect_lang`, which maps any
  error to the sentinel `"auto"`), translation is
  `String → String → String → Except String String`; an `Except.error`
  models a raised exception.
- `handle_message` returns an explicit result record: the reply sent (if
  any), the exception propagating out of the handler (if any), the updated
  mutable state (rate map, cache), and the list of provider translate
  invocations made.
-/

/-- The 30 supported target languages (`SUPPORTED_LANGUAGES` dict:
code ↦ display name). -/
def SUPPORTED_LANGUAGES : List (String × String) :=
  [("en", "English"), ("ru", "Russian"), ("hi", "Hindi"), ("bn", "Bengali"),
   ("es", "Spanish"), ("fr", "French"), ("de", "German"), ("it", "Italian"),
   ("pt", "Portuguese"), ("tr", "Turkish"), ("ar", "Arabic"), ("ur", "Urdu"),
   ("fa", "Persian"), ("ja", "Japanese"), ("ko", "Korean"),
   ("zh-cn", "Chinese (Simplified)"), ("zh-tw", "Chinese (Traditional)"),
   ("vi", "Vietnamese"), ("th", "Thai"), ("id", "Indonesian"),
   ("ms", "Malay"), ("nl", "Dutch"), ("pl", "Polish"), ("uk", "Ukrainian"),
   ("ro", "Romanian"), ("el", "Greek"), ("sv", "Swedish"),
   ("no", "Norwegian"), ("fi", "Finnish"), ("he", "Hebrew")]

/-- The constant `RATE_SECONDS = 2`. -/
def RATE_SECONDS : ℚ := 2

/-- The `RATE_LIMIT` dict: key string ↦ last-allowed timestamp.
Newest binding first; `.get(key, 0)` is `rateGet`. -/
abbrev RateState := List (String × ℚ)

/-- The read `RATE_LIMIT.get(key, 0)`. -/
def rateGet (s : RateState) (k : String) : ℚ :=
  match s.lookup k with
  | some v => v
  | none => 0

/-- The gate `is_rate_limited(key)` at time `now`: returns `True` (limited) and the
map untouched when `now - last < RATE_SECONDS`; otherwise stores `now` for
the key and returns `False`. -/
def is_rate_limited (s : RateState) (k : String) (now : ℚ) : Bool × RateState :=
  let last := rateGet s k
  if now - last < RATE_SECONDS then (true, s)
  else (false, (k, now) :: s)

/-- Python `str.lower()` (character-wise lowercasing). -/
def strToLower (s : String) : String :=
  ⟨s.data.map Char.toLower⟩

/-- Python `str.upper()` (character-wise uppercasing). -/
def strToUpper (s : String) : String :=
  ⟨s.data.map Char.toUpper⟩

/-- The test `re.search(r"\w", text)`: the text has at least one word-forming
character. -/
def has_text (t : String) : Bool :=
  t.data.any (fun c => c.isAlphanum || c == '_')

/-- Wrapper `detect_lang(text)`: delegate to the provider's detection; any raised
exception degrades to the sentinel `"auto"`. -/
def detect_lang (detect : String → Except String String) (t : String) : String :=
  match detect t with
  | Except.ok c => c
  | Except.error _ => "auto"

/-- The capacity bound `lru_cache(maxsize=5000)`. -/
def CACHE_MAXSIZE : Nat := 5000

/-- The memoization table of `cached_translate`: entries keyed by
`(text, src, dst)`, most recently used first. -/
abbrev Cache := List ((String × String × String) × String)

/-- The function `cached_translate(text, src, dst)` under `@lru_cache(maxsize=5000)`,
with the provider call explicit. Returns the result (or the propagating
exception), the updated cache, and the number of provider invocations
(0 on hit, 1 on miss). On a hit the entry is refreshed to most recently
used; on a successful miss the result is stored and the least recently
used entry dropped past capacity; a raised provider exception is never
stored. -/
def cached_translate (provider : String → String → String → Except String String)
    (c : Cache) (text src dst : String) :
    Except String String × Cache × Nat :=
  let k := (text, src, dst)
  match c.lookup k with
  | some v => (Except.ok v, (k, v) :: c.eraseP (fun p => p.1 == k), 0)
  | none =>
    match provider text src dst with
    | Except.ok v => (Except.ok v, ((k, v) :: c).take CACHE_MAXSIZE, 1)
    | Except.error e => (Except.error e, c, 1)

/-- One row of the `chat_settings` table:
`enabled INTEGER DEFAULT 1, target_lang TEXT DEFAULT 'en'`. -/
structure ChatRow where
  enabled : Int
  target_lang : String
deriving DecidableEq, Repr

/-- The `chat_settings` table: `chat_id INTEGER PRIMARY KEY` ↦ row. -/
abbrev ChatDB := List (Int × ChatRow)

/-- The `user_settings` table: `user_id INTEGER PRIMARY KEY` ↦
`enabled INTEGER DEFAULT 1`. -/
abbrev UserDB := List (Int × Int)

/-- SQLite `REPLACE INTO chat_settings`: delete any row with this primary
key and insert the new row. -/
def chatReplace (db : ChatDB) (chat_id : Int) (row : ChatRow) : ChatDB :=
  (chat_id, row) :: db.eraseP (fun p => p.1 == chat_id)

/-- SQLite `REPLACE INTO user_settings`. -/
def userReplace (db : UserDB) (user_id : Int) (enabled : Int) : UserDB :=
  (user_id, enabled) :: db.eraseP (fun p => p.1 == user_id)

/-- Read `chat_enabled(chat_id)`: `row[0] == 1 if row else True`. -/
def chat_enabled (db : ChatDB) (chat_id : Int) : Bool :=
  match db.lookup chat_id with
  | some r => r.enabled == 1
  | none => true

/-- Read `user_enabled(user_id)`: `row[0] == 1 if row else True`. -/
def user_enabled (db : UserDB) (user_id : Int) : Bool :=
  match db.lookup user_id with
  | some e => e == 1
  | none => true

/-- Read `chat_target(chat_id)`: `row[0] if row else "en"`. -/
def chat_target (db : ChatDB) (chat_id : Int) : String :=
  match db.lookup chat_id with
  | some r => r.target_lang
  | none => "en"

/-- Command `/translate_on`: `REPLACE INTO chat_settings(chat_id, enabled)
VALUES (?,1)` — `target_lang` takes its column default `'en'`. Returns the
updated table and the reply text. -/
def translate_on (db : ChatDB) (chat_id : Int) : ChatDB × String :=
  (chatReplace db chat_id ⟨1, "en"⟩, "✅ Translation enabled in this chat")

/-- Command `/translate_off`: `REPLACE INTO chat_settings(chat_id, enabled)
VALUES (?,0)` — `target_lang` takes its column default `'en'`. -/
def translate_off (db : ChatDB) (chat_id : Int) : ChatDB × String :=
  (chatReplace db chat_id ⟨0, "en"⟩, "⛔ Translation disabled in this chat")

/-- Command `/user_on`. -/
def user_on (db : UserDB) (user_id : Int) : UserDB × String :=
  (userReplace db user_id 1, "✅ Translation enabled for you")

/-- Command `/user_off`. -/
def user_off (db : UserDB) (user_id : Int) : UserDB × String :=
  (userReplace db user_id 0, "⛔ Translation disabled for you")

/-- Command `/setlang <code>`: lowercase the first argument, reject codes outside
`SUPPORTED_LANGUAGES` with no store mutation; otherwise
`REPLACE INTO chat_settings(chat_id, target_lang) VALUES (?,?)` —
`enabled` takes its column default `1`. -/
def setlang (db : ChatDB) (chat_id : Int) (args : List String) : ChatDB × String :=
  match args with
  | [] => (db, "Usage: /setlang <language_code>")
  | a :: _ =>
    let lang := strToLower a
    match SUPPORTED_LANGUAGES.lookup lang with
    | none => (db, "❌ Unsupported language. Use /languages")
    | some name =>
      (chatReplace db chat_id ⟨1, lang⟩,
       "🌐 Target language set to " ++ name ++ " (" ++ lang ++ ")")

/-- An inbound Telegram message's translatable fields: `message.text` and
`message.caption` (each possibly absent). -/
structure Msg where
  text : Option String
  caption : Option String
deriving DecidableEq, Repr

/-- The payload `message.text or message.caption` (Python truthiness: an empty text
string falls through to the caption). -/
def extract_payload (m : Msg) : Option String :=
  match m.text with
  | some s => if s == "" then m.caption else some s
  | none => m.caption

/-- The mutable state `handle_message` touches: the two settings tables,
the rate-limit map and the translation cache. -/
structure BotState where
  chats : ChatDB
  users : UserDB
  rate : RateState
  cache : Cache
deriving DecidableEq

/-- The observable outcome of one `handle_message` invocation: the reply
sent (at most one), the exception propagating out of the handler (if any),
the state afterwards, and the provider translate calls made. -/
structure HandleResult where
  reply : Option String
  raised : Option String
  state : BotState
  providerCalls : List (String × String × String)
deriving DecidableEq

/-- The rate-limit key `f"{chat_id}:{user_id}"`. -/
def rate_key (chat_id user_id : Int) : String :=
  toString chat_id ++ ":" ++ toString user_id

/-- Handler `handle_message` (lines 246–270): policy gates, rate-limit gate (which
stores the timestamp as a side effect of the check), payload extraction
and word-character gate, detection, the `src == dst` short-circuit,
cache-checked translation, and the reply
`f"🌐 {src.upper()} → {dst.upper()}\n{translated}"`. A provider translate
exception is uncaught and propagates out of the handler. -/
def handle_message (detect : String → Except String String)
    (provider : String → String → String → Except String String)
    (msg : Option Msg) (chat_id user_id : Int) (now : ℚ)
    (st : BotState) : HandleResult :=
  match msg with
  | none => ⟨none, none, st, []⟩
  | some message =>
    if !chat_enabled st.chats chat_id || !user_enabled st.users user_id then
      ⟨none, none, st, []⟩
    else
      let rl := is_rate_limited st.rate (rate_key chat_id user_id) now
      let st := { st with rate := rl.2 }
      if rl.1 then
        ⟨none, none, st, []⟩
      else
        match extract_payload message with
        | none => ⟨none, none, st, []⟩
        | some text =>
          if text == "" || !has_text text then
            ⟨none, none, st, []⟩
          else
            let src := detect_lang detect text
            let dst := chat_target st.chats chat_id
            if src == dst then
              ⟨none, none, st, []⟩
            else
              let tr := cached_translate provider st.cache text src dst
              let st := { st with cache := tr.2.1 }
              let calls := if tr.2.2 == 1 then [(text, src, dst)] else []
              match tr.1 with
              | Except.error e => ⟨none, some e, st, calls⟩
              | Except.ok translated =>
                ⟨some ("🌐 " ++ strToUpper src ++ " → " ++ strToUpper dst ++ "\n"
                        ++ translated),
                 none, st, calls⟩

theorem is_rate_limited_allowed (s : RateState) (k : String) (t : ℚ)
    (h : RATE_SECONDS ≤ t - rateGet s k) :
    is_rate_limited s k t = (false, (k, t) :: s) := by
  unfold is_rate_limited
  rw [if_neg (by linarith)]

theorem is_rate_limited_rejected (s : RateState) (k : String) (t : ℚ)
    (h : t - rateGet s k < RATE_SECONDS) :
    is_rate_limited s k t = (true, s) := by
  unfold is_rate_limited
  rw [if_pos h]

theorem rateGet_cons_self (s : RateState) (k : String) (t : ℚ) :
    rateGet ((k, t) :: s) k = t := by
  simp [rateGet, List.lookup]

/-- C4: an admission check at time `t` is allowed iff at least
`RATE_SECONDS` have elapsed since the stored last-allowed timestamp
(exactly `RATE_SECONDS` is allowed, strictly less is rejected); on allow
the stored timestamp becomes `t` (and a rejected check leaves the map
untouched), so after an allowed check at `t` a later check at `u` is
allowed iff `u - t ≥ RATE_SECONDS`. -/
theorem is_rate_limited_cooldown (s : RateState) (k : String) (t : ℚ) :
    ((is_rate_limited s k t).1 = false ↔ RATE_SECONDS ≤ t - rateGet s k)
    ∧ ((is_rate_limited s k t).1 = false →
        rateGet (is_rate_limited s k t).2 k = t)
    ∧ ((is_rate_limited s k t).1 = true → (is_rate_limited s k t).2 = s)
    ∧ (∀ u : ℚ, (is_rate_limited s k t).1 = false →
        ((is_rate_limited (is_rate_limited s k t).2 k u).1 = false ↔
          RATE_SECONDS ≤ u - t)) := by
  by_cases h : t - rateGet s k < RATE_SECONDS
  · rw [is_rate_limited_rejected s k t h]
    constructor
    · constructor
      · intro hc
        exact absurd hc (by simp)
      · intro hc
        linarith
    · refine ⟨by simp, fun _ => rfl, ?_⟩
      intro u hc
      exact absurd hc (by simp)
  · have h2 : RATE_SECONDS ≤ t - rateGet s k := by linarith
    rw [is_rate_limited_allowed s k t h2]
    refine ⟨by simpa using h2, fun _ => rateGet_cons_self s k t, by simp, ?_⟩
    intro u _
    by_cases hu : u - rateGet ((k, t) :: s) k < RATE_SECONDS
    · rw [is_rate_limited_rejected _ k u hu]
      rw [rateGet_cons_self] at hu
      constructor
      · intro hc
        exact absurd hc (by simp)
      · intro hc
        linarith
    · have hu2 : RATE_SECONDS ≤ u - rateGet ((k, t) :: s) k := by linarith
      rw [is_rate_limited_allowed _ k u hu2]
      rw [rateGet_cons_self] at hu2
      simpa using hu2

/-- C4 witness: a fresh key at time 5 is admitted. -/
theorem is_rate_limited_cooldown_witness :
    (is_rate_limited [] "1:2" 5).1 = false :=
  (is_rate_limited_cooldown [] "1:2" 5).1.mpr
    (by simp [rateGet, List.lookup, RATE_SECONDS]; norm_num)

/-- C5: when the key is absent and the provider raises, `cached_translate`
propagates the error, makes one provider call, and leaves the cache exactly
as it was (so the key stays absent), and an identical retry hits the
provider again with the same outcome. -/
theorem cached_translate_failure_uncached
    (provider : String → String → String → Except String String)
    (c : Cache) (text src dst e : String)
    (habs : c.lookup (text, src, dst) = none)
    (hfail : provider text src dst = Except.error e) :
    cached_translate provider c text src dst = (Except.error e, c, 1)
    ∧ cached_translate provider
        (cached_translate provider c text src dst).2.1 text src dst
        = (Except.error e, c, 1) := by
  simp [cached_translate, habs, hfail]

/-- C5 witness: a failing provider on an empty cache. -/
theorem cached_translate_failure_uncached_witness :
    cached_translate (fun _ _ _ => Except.error "network") [] "hola" "es" "en"
      = (Except.error "network", [], 1) :=
  (cached_translate_failure_uncached (fun _ _ _ => Except.error "network")
    [] "hola" "es" "en" "network" (by decide) rfl).1

/-- C6: two identical successful `cached_translate` calls return the same
result and invoke the provider at most once in total. -/
theorem cached_translate_idempotent
    (provider : String → String → String → Except String String)
    (c : Cache) (text src dst v : String)
    (hok : provider text src dst = Except.ok v) :
    (cached_translate provider
        (cached_translate provider c text src dst).2.1 text src dst).1
      = (cached_translate provider c text src dst).1
    ∧ (cached_translate provider c text src dst).2.2
        + (cached_translate provider
            (cached_translate provider c text src dst).2.1 text src dst).2.2
        ≤ 1 := by
  match h : c.lookup (text, src, dst) with
  | some w =>
    simp [cached_translate, h, List.lookup]
  | none =>
    simp [cached_translate, h, hok, CACHE_MAXSIZE, List.lookup]

/-- C6 witness: translating the same text twice on an empty cache. -/
theorem cached_translate_idempotent_witness :
    (cached_translate (fun _ _ _ => Except.ok "Hallo")
        (cached_translate (fun _ _ _ => Except.ok "Hallo") [] "hello" "en" "de").2.1
        "hello" "en" "de").1
      = (cached_translate (fun _ _ _ => Except.ok "Hallo") [] "hello" "en" "de").1 :=
  (cached_translate_idempotent (fun _ _ _ => Except.ok "Hallo")
    [] "hello" "en" "de" "Hallo" rfl).1

/-- C1 counterexample: on an empty table, `/setlang fr` followed by
`/translate_off` leaves the stored target language as `"en"`, not `"fr"` —
`REPLACE INTO` writes a full fresh row, so the unlisted `target_lang`
column falls back to its schema default. -/
theorem setlang_then_translate_off_counterexample :
    chat_target (translate_off (setlang [] 1 ["fr"]).1 1).1 1 ≠ "fr" := by
  decide

/-- C1 amended: each settings write replaces the whole row, resetting the
untargeted column to its schema default: `/setlang fr` then
`/translate_off` leaves target `"en"` and enabled false; `/translate_off`
then `/setlang fr` leaves target `"fr"` and enabled true. -/
theorem replace_into_clobbers_other_field (db : ChatDB) (chat_id : Int) :
    chat_target (translate_off (setlang db chat_id ["fr"]).1 chat_id).1 chat_id = "en"
    ∧ chat_enabled (translate_off (setlang db chat_id ["fr"]).1 chat_id).1 chat_id = false
    ∧ chat_target (setlang (translate_off db chat_id).1 chat_id ["fr"]).1 chat_id = "fr"
    ∧ chat_enabled (setlang (translate_off db chat_id).1 chat_id ["fr"]).1 chat_id = true := by
  have hfr : SUPPORTED_LANGUAGES.lookup (strToLower "fr") = some "French" := by
    decide
  have hlow : strToLower "fr" = "fr" := by decide
  simp [setlang, hfr, hlow, translate_off, chatReplace, chat_target,
    chat_enabled, List.lookup]

/-- The stored target languages of every row lie in the supported set. -/
def targets_supported (db : ChatDB) : Bool :=
  db.all (fun p => (SUPPORTED_LANGUAGES.lookup p.2.target_lang).isSome)

/-- C7: `/setlang` with a code outside `SUPPORTED_LANGUAGES` replies with
the rejection message and leaves the table exactly as it was; moreover no
`/setlang` call whatsoever can make a stored target language leave the
supported set. -/
theorem setlang_unsupported_refused (db : ChatDB) (chat_id : Int)
    (a : String) (rest : List String)
    (h : SUPPORTED_LANGUAGES.lookup (strToLower a) = none) :
    setlang db chat_id (a :: rest) = (db, "❌ Unsupported language. Use /languages")
    ∧ ∀ args, targets_supported db = true →
        targets_supported (setlang db chat_id args).1 = true := by
  constructor
  · simp [setlang, h]
  · intro args hdb
    match args with
    | [] => simpa [setlang] using hdb
    | b :: rest' =>
      match hb : SUPPORTED_LANGUAGES.lookup (strToLower b) with
      | none => simpa [setlang, hb] using hdb
      | some name =>
        simp only [setlang, hb]
        rw [targets_supported, List.all_eq_true] at hdb ⊢
        intro p hp
        rcases List.mem_cons.mp hp with h1 | h2
        · subst h1
          simp [hb]
        · exact hdb p ((List.eraseP_sublist db).subset h2)

/-- C7 witness: `/setlang xx` on an empty table is refused and writes
nothing. -/
theorem setlang_unsupported_refused_witness :
    setlang [] 1 ["xx"] = ([], "❌ Unsupported language. Use /languages") :=
  (setlang_unsupported_refused [] 1 "xx" [] (by decide)).1

/-- C10: a non-empty `message.text` is the payload whatever the caption
is; the caption is the payload exactly when the text field is absent or
the empty string. -/
theorem extract_payload_prefers_text (t : String) (c : Option String)
    (h : t ≠ "") :
    extract_payload ⟨some t, c⟩ = some t
    ∧ extract_payload ⟨none, c⟩ = c
    ∧ extract_payload ⟨some "", c⟩ = c := by
  refine ⟨by simp [extract_payload, h], rfl, by simp [extract_payload]⟩

/-- C10 witness: a message carrying both text and caption keeps the
text. -/
theorem extract_payload_prefers_text_witness :
    extract_payload ⟨some "hi", some "cap"⟩ = some "hi" :=
  (extract_payload_prefers_text "hi" (some "cap") (by decide)).1

/-- C8: when every earlier gate passes and the detected source equals the
configured target (a pure string comparison, the `"auto"` sentinel
included), the handler replies nothing, raises nothing, calls the provider
never, and only the rate-limit stamp has changed. -/
theorem src_eq_dst_short_circuit
    (detect : String → Except String String)
    (provider : String → String → String → Except String String)
    (m : Msg) (chat_id user_id : Int) (now : ℚ) (st : BotState) (text : String)
    (hchat : chat_enabled st.chats chat_id = true)
    (huser : user_enabled st.users user_id = true)
    (hrate : RATE_SECONDS ≤ now - rateGet st.rate (rate_key chat_id user_id))
    (hpay : extract_payload m = some text)
    (hne : text ≠ "")
    (hword : has_text text = true)
    (heq : detect_lang detect text = chat_target st.chats chat_id) :
    handle_message detect provider (some m) chat_id user_id now st
      = ⟨none, none,
         { st with rate := (rate_key chat_id user_id, now) :: st.rate }, []⟩ := by
  simp [handle_message, hchat, huser, hpay, hword, hne, heq,
    is_rate_limited_allowed _ _ _ hrate]

/-- C8 witness: a chat with default target `"en"` and input detected as
`"en"` gets no reply and no provider call. -/
theorem src_eq_dst_short_circuit_witness :
    (handle_message (fun _ => Except.ok "en") (fun _ _ _ => Except.ok "x")
        (some ⟨some "Hello", none⟩) 5 6 20 ⟨[], [], [], []⟩).reply = none
    ∧ (handle_message (fun _ => Except.ok "en") (fun _ _ _ => Except.ok "x")
        (some ⟨some "Hello", none⟩) 5 6 20 ⟨[], [], [], []⟩).providerCalls = [] := by
  rw [src_eq_dst_short_circuit (fun _ => Except.ok "en") (fun _ _ _ => Except.ok "x")
    ⟨some "Hello", none⟩ 5 6 20 ⟨[], [], [], []⟩ "Hello"
    rfl rfl (by norm_num [RATE_SECONDS, rateGet, List.lookup])
    (by simp [extract_payload]) (by decide) (by decide) (by decide)]
  exact ⟨rfl, rfl⟩

/-- C2 counterexample: with every gate passing and the provider raising,
the exception escapes `handle_message` (`raised` is set) — there is no
try/except around the translation call, so the error does propagate into
the transport layer. -/
theorem provider_error_escapes_counterexample :
    (handle_message (fun _ => Except.ok "fr") (fun _ _ _ => Except.error "network")
        (some ⟨some "Hello", none⟩) 1 2 10 ⟨[], [], [], []⟩).raised
      = some "network" := by
  norm_num [handle_message, chat_enabled, user_enabled, chat_target,
    is_rate_limited, rateGet, extract_payload, has_text, detect_lang,
    cached_translate, List.lookup, RATE_SECONDS]
  decide

/-- C2 amended: when the provider translation call raises, the handler
sends no reply and leaves the cache untouched, but the exception
propagates out of `handle_message` (only the surrounding telegram
framework can catch it); the rate-limit stamp taken earlier persists. -/
theorem provider_error_propagates
    (detect : String → Except String String)
    (provider : String → String → String → Except String String)
    (m : Msg) (chat_id user_id : Int) (now : ℚ) (st : BotState) (text e : String)
    (hchat : chat_enabled st.chats chat_id = true)
    (huser : user_enabled st.users user_id = true)
    (hrate : RATE_SECONDS ≤ now - rateGet st.rate (rate_key chat_id user_id))
    (hpay : extract_payload m = some text)
    (hne : text ≠ "")
    (hword : has_text text = true)
    (hsd : detect_lang detect text ≠ chat_target st.chats chat_id)
    (hmiss : st.cache.lookup
        (text, detect_lang detect text, chat_target st.chats chat_id) = none)
    (hfail : provider text (detect_lang detect text) (chat_target st.chats chat_id)
        = Except.error e) :
    handle_message detect provider (some m) chat_id user_id now st
      = ⟨none, some e,
         { st with rate := (rate_key chat_id user_id, now) :: st.rate },
         [(text, detect_lang detect text, chat_target st.chats chat_id)]⟩ := by
  simp [handle_message, hchat, huser, hpay, hword, hne, hsd, hmiss, hfail,
    cached_translate, is_rate_limited_allowed _ _ _ hrate]

/-- C2 witness: a concrete failing translation escapes with no reply. -/
theorem provider_error_propagates_witness :
    (handle_message (fun _ => Except.ok "fr") (fun _ _ _ => Except.error "quota")
        (some ⟨some "Hi", none⟩) 3 4 10 ⟨[], [], [], []⟩).raised = some "quota"
    ∧ (handle_message (fun _ => Except.ok "fr") (fun _ _ _ => Except.error "quota")
        (some ⟨some "Hi", none⟩) 3 4 10 ⟨[], [], [], []⟩).reply = none := by
  rw [provider_error_propagates (fun _ => Except.ok "fr")
    (fun _ _ _ => Except.error "quota") ⟨some "Hi", none⟩ 3 4 10
    ⟨[], [], [], []⟩ "Hi" "quota" rfl rfl
    (by norm_num [RATE_SECONDS, rateGet, List.lookup])
    (by simp [extract_payload]) (by decide) (by decide) (by decide) rfl rfl]
  exact ⟨rfl, rfl⟩

/-- C3 counterexample: a message with no text and no caption from an
enabled chat and user still consumes an admission slot — the rate-limit
map gains a stamp because `is_rate_limited` runs before the payload
check. -/
theorem textless_message_stamps_rate_counterexample :
    (handle_message (fun _ => Except.ok "en") (fun _ _ _ => Except.ok "x")
        (some ⟨none, none⟩) 1 2 10 ⟨[], [], [], []⟩).state.rate ≠ [] := by
  norm_num [handle_message, chat_enabled, user_enabled, is_rate_limited,
    rateGet, extract_payload, List.lookup, RATE_SECONDS]

/-- C3 amended: the payload check runs after the policy and admission
gates; a textless message from an enabled chat and user that is not
currently rate-limited updates the admission timestamp to `now`, and the
handler still sends no reply, raises nothing, and calls no provider. -/
theorem textless_message_after_admission
    (detect : String → Except String String)
    (provider : String → String → String → Except String String)
    (m : Msg) (chat_id user_id : Int) (now : ℚ) (st : BotState)
    (hchat : chat_enabled st.chats chat_id = true)
    (huser : user_enabled st.users user_id = true)
    (hrate : RATE_SECONDS ≤ now - rateGet st.rate (rate_key chat_id user_id))
    (hpay : extract_payload m = none) :
    handle_message detect provider (some m) chat_id user_id now st
      = ⟨none, none,
         { st with rate := (rate_key chat_id user_id, now) :: st.rate }, []⟩ := by
  simp [handle_message, hchat, huser, hpay, is_rate_limited_allowed _ _ _ hrate]

/-- C3 witness: a concrete textless message stamps the rate map and gets
no reply. -/
theorem textless_message_after_admission_witness :
    (handle_message (fun _ => Except.ok "en") (fun _ _ _ => Except.ok "x")
        (some ⟨none, none⟩) 7 8 10 ⟨[], [], [], []⟩).state.rate
      = [(rate_key 7 8, 10)]
    ∧ (handle_message (fun _ => Except.ok "en") (fun _ _ _ => Except.ok "x")
        (some ⟨none, none⟩) 7 8 10 ⟨[], [], [], []⟩).reply = none := by
  rw [textless_message_after_admission (fun _ => Except.ok "en")
    (fun _ _ _ => Except.ok "x") ⟨none, none⟩ 7 8 10 ⟨[], [], [], []⟩
    rfl rfl (by norm_num [RATE_SECONDS, rateGet, List.lookup]) rfl]
  exact ⟨rfl, rfl⟩

/-- C9 counterexample: the reply on the spec's own end-to-end example is
`"🌐 EN → ES\nHola mundo"` — it carries a leading globe-emoji prefix, so
it is not literally of the form `"EN → ES\n<result>"`. -/
theorem reply_form_counterexample :
    (handle_message (fun _ => Except.ok "en") (fun _ _ _ => Except.ok "Hola mundo")
        (some ⟨some "Hello world", none⟩) 1 2 10
        ⟨[(1, ⟨1, "es"⟩)], [], [], []⟩).reply = some "🌐 EN → ES\nHola mundo"
    ∧ (handle_message (fun _ => Except.ok "en") (fun _ _ _ => Except.ok "Hola mundo")
        (some ⟨some "Hello world", none⟩) 1 2 10
        ⟨[(1, ⟨1, "es"⟩)], [], [], []⟩).reply ≠ some "EN → ES\nHola mundo" := by
  have h : (handle_message (fun _ => Except.ok "en")
      (fun _ _ _ => Except.ok "Hola mundo")
      (some ⟨some "Hello world", none⟩) 1 2 10
      ⟨[(1, ⟨1, "es"⟩)], [], [], []⟩).reply = some "🌐 EN → ES\nHola mundo" := by
    norm_num [handle_message, chat_enabled, user_enabled, chat_target,
      is_rate_limited, rateGet, extract_payload, has_text, detect_lang,
      cached_translate, strToUpper, List.lookup, RATE_SECONDS]
    decide
  refine ⟨h, ?_⟩
  rw [h]
  decide

/-- C9 amended: when every gate passes and the key is not yet cached, the
handler calls the provider exactly once with exactly the extracted text,
the detected source and the configured target, and sends exactly one
reply, `"🌐 " ++ SRC ++ " → " ++ DST ++ "\n" ++ result` with uppercased
codes — the spec's claimed form preceded by the globe-emoji prefix. -/
theorem reply_carries_globe_emoji
    (detect : String → Except String String)
    (provider : String → String → String → Except String String)
    (m : Msg) (chat_id user_id : Int) (now : ℚ) (st : BotState) (text v : String)
    (hchat : chat_enabled st.chats chat_id = true)
    (huser : user_enabled st.users user_id = true)
    (hrate : RATE_SECONDS ≤ now - rateGet st.rate (rate_key chat_id user_id))
    (hpay : extract_payload m = some text)
    (hne : text ≠ "")
    (hword : has_text text = true)
    (hsd : detect_lang detect text ≠ chat_target st.chats chat_id)
    (hmiss : st.cache.lookup
        (text, detect_lang detect text, chat_target st.chats chat_id) = none)
    (hok : provider text (detect_lang detect text) (chat_target st.chats chat_id)
        = Except.ok v) :
    handle_message detect provider (some m) chat_id user_id now st
      = ⟨some ("🌐 " ++ strToUpper (detect_lang detect text) ++ " → "
              ++ strToUpper (chat_target st.chats chat_id) ++ "\n" ++ v),
         none,
         { st with
            rate := (rate_key chat_id user_id, now) :: st.rate,
            cache := (((text, detect_lang detect text,
                        chat_target st.chats chat_id), v)
                      :: st.cache).take CACHE_MAXSIZE },
         [(text, detect_lang detect text, chat_target st.chats chat_id)]⟩ := by
  simp [handle_message, hchat, huser, hpay, hword, hne, hsd, hmiss, hok,
    cached_translate, is_rate_limited_allowed _ _ _ hrate]

/-- C9 witness: the spec's end-to-end example, with the emoji prefix. -/
theorem reply_carries_globe_emoji_witness :
    (handle_message (fun _ => Except.ok "en") (fun _ _ _ => Except.ok "Hola mundo")
        (some ⟨some "Hello world", none⟩) 9 2 10
        ⟨[(9, ⟨1, "es"⟩)], [], [], []⟩).reply = some "🌐 EN → ES\nHola mundo"
    ∧ (handle_message (fun _ => Except.ok "en") (fun _ _ _ => Except.ok "Hola mundo")
        (some ⟨some "Hello world", none⟩) 9 2 10
        ⟨[(9, ⟨1, "es"⟩)], [], [], []⟩).providerCalls
      = [("Hello world", "en", "es")] := by
  rw [reply_carries_globe_emoji (fun _ => Except.ok "en")
    (fun _ _ _ => Except.ok "Hola mundo") ⟨some "Hello world", none⟩ 9 2 10
    ⟨[(9, ⟨1, "es"⟩)], [], [], []⟩ "Hello world" "Hola mundo"
    (by decide) rfl (by norm_num [RATE_SECONDS, rateGet, List.lookup])
    (by simp [extract_payload]) (by decide) (by decide) (by decide) rfl rfl]
  exact ⟨by decide, by decide⟩
